import Mathlib

/-!
Verification development for the dive-into-refactoring repository.

The repository is a catalogue of before/after refactoring examples in
TypeScript. Its specification (spec.md sections 2 to 8) reconstructs the
code-smell detection engine that the catalogue implies; the spec states
explicitly that no detection code exists in the repository. Accordingly,
this file contains two kinds of definitions:

1. The detection engine (Program Model, Metric Collectors, Smell
   Detectors, Refactoring Suggester): these carry doc comments starting
   with "Modelled from the spec:" because the engine is absent from the
   source tree and is defined here faithfully from the words of spec.md.

2. The example classes that the claims reference (Employee and its
   subclasses, Order and Customer and their refactored forms, the
   Person and Department message-chain example, and the per-file
   structure of the repository): these are shallow embeddings of the
   TypeScript source files, translated directly from the code. TS
   numbers are embedded as rationals, TS strings as String, TS arrays
   as List.
-/

/-! ## Program Model (spec.md section 3) -/

/-- Modelled from the spec: declared type tag of a field or parameter
(primitive, reference or collection, section 3); the tag typeCode is the
type tag named in the typeSwitchCount metric (section 4.1) and in the
glossary entry Type-code field. -/
inductive TypeTag where
  | primitive
  | reference
  | collection
  | typeCode
deriving DecidableEq, Repr

/-- Modelled from the spec: field visibility (section 3, FieldEntity). -/
inductive Visibility where
  | pub
  | priv
  | prot
deriving DecidableEq, Repr

/-- Modelled from the spec: access kind of an AccessEntity
(read, write or call, section 3). -/
inductive AccessKind where
  | read
  | write
  | call
deriving DecidableEq, Repr

/-- Modelled from the spec: AccessEntity (section 3): a target field or
method name, the owner class of the target, and the access kind. The
field ret records the model class returned by the access when there is
one; it realises the phrase of the chainDepth metric (section 4.1)
"each subsequent access's receiver is the prior access's return class". -/
structure AccessEntity where
  target : String
  owner : String
  kind : AccessKind
  ret : Option String
deriving DecidableEq, Repr

/-- Modelled from the spec: ParameterEntity (section 3): name, declared
type tag, position. -/
structure ParameterEntity where
  name : String
  typeTag : TypeTag
  position : Nat
deriving DecidableEq, Repr

/-- Modelled from the spec: one conditional dispatch in a method body;
the branch set of a method discriminates on the field onField with the
listed case labels (sections 3 and 4.1, typeSwitchCount). -/
structure SwitchBranch where
  onField : String
  labels : List String
deriving DecidableEq, Repr

/-- Modelled from the spec: FieldEntity (section 3): owning class
back-reference, name, declared type tag, visibility. -/
structure FieldEntity where
  ownerClass : String
  name : String
  typeTag : TypeTag
  visibility : Visibility
deriving DecidableEq, Repr

/-- Modelled from the spec: MethodEntity (section 3): owning class
back-reference, name, ordered parameters, the ordered set of
AccessEntity touched by the body, an approximate statement count, and
the branch set used as the proxy for switch-on-type detection. -/
structure MethodEntity where
  ownerClass : String
  name : String
  params : List ParameterEntity
  accesses : List AccessEntity
  statementCount : Nat
  branches : List SwitchBranch
deriving DecidableEq, Repr

/-- Modelled from the spec: ClassEntity (section 3): identifier, ordered
fields, ordered methods, optional single superclass. -/
structure ClassEntity where
  name : String
  fields : List FieldEntity
  methods : List MethodEntity
  superclass : Option String
deriving DecidableEq, Repr

/-- Modelled from the spec: the Program Model is the collection of
classes built once per analysis run (section 3). -/
def ProgramModel : Type := List ClassEntity

/-- Modelled from the spec: the fourteen cataloged smell kinds
(section 3, Finding); only the kinds exercised by the testable
properties are enumerated here. -/
inductive SmellKind where
  | messageChains
  | featureEnvy
  | switchStatements
  | largeClass
  | dataClass
  | longParameterList
  | dataClumps
deriving DecidableEq, Repr

/-- Modelled from the spec: the refactoring kinds named by the
Refactoring Suggester table (section 4.3) for the smells enumerated in
SmellKind. -/
inductive RefactoringKind where
  | hideDelegate
  | moveFunction
  | replaceTypeCodeWithSubclasses
  | extractClass
  | introduceParameterObject
deriving DecidableEq, Repr

/-- Modelled from the spec: Finding (section 3): smell kind, severity
score monotonic in the triggering metric, primary location, secondary
locations, suggested refactoring kind, rationale string. -/
structure Finding where
  smell : SmellKind
  severity : Nat
  primaryLocation : String
  secondary : List String
  refactoring : RefactoringKind
  rationale : String
deriving DecidableEq, Repr

/-- Modelled from the spec: the configuration surface of section 6 with
its default values. -/
structure Config where
  largeClassFieldThreshold : Nat
  largeClassStatementThreshold : Nat
  featureEnvyRatio : ℚ
  longParameterListThreshold : Nat
  messageChainMinDepth : Nat
  dataClumpMinGroupSize : Nat
  dataClumpMinRecurrence : Nat
deriving DecidableEq, Repr

/-- Modelled from the spec: the default configuration of section 6. -/
def defaultConfig : Config where
  largeClassFieldThreshold := 10
  largeClassStatementThreshold := 200
  featureEnvyRatio := 1 / 2
  longParameterListThreshold := 4
  messageChainMinDepth := 2
  dataClumpMinGroupSize := 3
  dataClumpMinRecurrence := 3

/-! ## Metric Collectors (spec.md section 4.1) -/

/-- Modelled from the spec: fieldCount per class (section 4.1). -/
def fieldCount (c : ClassEntity) : Nat := c.fields.length

/-- Modelled from the spec: methodCount per class (section 4.1). -/
def methodCount (c : ClassEntity) : Nat := c.methods.length

/-- Modelled from the spec: statementCount per class, the sum over its
methods (section 4.1). -/
def classStatementCount (c : ClassEntity) : Nat :=
  (c.methods.map (fun m => m.statementCount)).sum

/-- Modelled from the spec: parameterCount per method (section 4.1). -/
def parameterCount (m : MethodEntity) : Nat := m.params.length

/-- Modelled from the spec: an access is external to its enclosing
method when the owner class of the target differs from the owning class
of the method (section 3 tags accesses self or other). -/
def isExternal (m : MethodEntity) (a : AccessEntity) : Bool :=
  a.owner != m.ownerClass

/-- Modelled from the spec: the external accesses of a method. -/
def externalAccesses (m : MethodEntity) : List AccessEntity :=
  m.accesses.filter (isExternal m)

/-- Modelled from the spec: externalAccessRatio, the count of
AccessEntity with owner distinct from self over the total AccessEntity
count (section 4.1); a method without accesses gets ratio zero. -/
def externalAccessRatio (m : MethodEntity) : ℚ :=
  ((externalAccesses m).length : ℚ) / (m.accesses.length : ℚ)

/-- Modelled from the spec: two consecutive accesses are chain-linked
when the later one is a call whose receiver class is the return class of
the prior access (section 4.1, chainDepth). -/
def chainLinked (a b : AccessEntity) : Bool :=
  (b.kind == AccessKind.call) && (a.ret == some b.owner)

/-- Modelled from the spec: the weight an access contributes to a chain:
one hop per call, none for plain field reads or writes (glossary: chain
depth counts sequential dependent object-returning calls). -/
def callWeight (a : AccessEntity) : Nat :=
  if a.kind == AccessKind.call then 1 else 0

/-- Modelled from the spec: accumulator walking a method's ordered
accesses and collecting the maximal chain-linked runs; each run is
reported as the owner class of the access starting the run paired with
the number of calls in the run. -/
def chainRunsAux : AccessEntity → String → Nat → List AccessEntity →
    List (String × Nat)
  | _, st, cur, [] => [(st, cur)]
  | prev, st, cur, b :: rest =>
    if chainLinked prev b then
      chainRunsAux b st (cur + 1) rest
    else
      (st, cur) :: chainRunsAux b b.owner (callWeight b) rest

/-- Modelled from the spec: the chain-linked runs of a method's ordered
AccessEntity list. -/
def chainRuns (m : MethodEntity) : List (String × Nat) :=
  match m.accesses with
  | [] => []
  | a :: rest => chainRunsAux a a.owner (callWeight a) rest

/-- Modelled from the spec: chainDepth, the maximum consecutive depth of
call-after-call access sequences in the method's AccessEntity ordering
(section 4.1). -/
def chainDepth (m : MethodEntity) : Nat :=
  ((chainRuns m).map Prod.snd).foldr max 0

/-- Modelled from the spec: the owner class of the first run reaching
the configured minimum chain depth; the Hide Delegate suggestion targets
this class (section 8, Scenario 1 names Person as target). -/
def chainSource (cfg : Config) (m : MethodEntity) : Option String :=
  (((chainRuns m).filter
      (fun r => cfg.messageChainMinDepth ≤ r.snd)).map Prod.fst).head?

/-- Modelled from the spec: whether a method's branch set discriminates
on the named field (section 4.1, typeSwitchCount). -/
def discriminatesOn (m : MethodEntity) (f : String) : Bool :=
  m.branches.any (fun b => b.onField == f)

/-- Modelled from the spec: how many methods of the class discriminate
on the named field. -/
def typeSwitchCountOn (c : ClassEntity) (f : String) : Nat :=
  (c.methods.filter (fun m => discriminatesOn m f)).length

/-- Modelled from the spec: the fields of the class whose declared type
tag is type-code. -/
def typeCodeFields (c : ClassEntity) : List String :=
  (c.fields.filter (fun fd => fd.typeTag == TypeTag.typeCode)).map
    (fun fd => fd.name)

/-- Modelled from the spec: typeSwitchCount, the number of methods whose
branch set discriminates on the same field of declared type tag
type-code (section 4.1); the count is taken over the most switched-on
type-code field. -/
def typeSwitchCount (c : ClassEntity) : Nat :=
  ((typeCodeFields c).map (typeSwitchCountOn c)).foldr max 0

/-- Modelled from the spec: the distinct external targets a method
accesses on one given other class (section 4.1, Feature Envy needs at
least two distinct external accesses to the same other class). -/
def distinctExternalTargets (m : MethodEntity) (cls : String) :
    List String :=
  (((externalAccesses m).filter (fun a => a.owner == cls)).map
    (fun a => a.target)).dedup

/-- Modelled from the spec: the external classes on which a method has
at least two distinct accesses, the candidate envy targets. -/
def envyCandidates (m : MethodEntity) : List String :=
  (((externalAccesses m).map (fun a => a.owner)).dedup).filter
    (fun cls => 2 ≤ (distinctExternalTargets m cls).length)

/-! ## Refactoring Suggester (spec.md section 4.3) -/

/-- Modelled from the spec: the fixed smell-to-refactoring table of
section 4.3, restricted to the enumerated smells; where the table lists
alternatives the one named by the testable properties of section 8 is
taken (Scenario 1 names Hide Delegate, Scenario 2 Move Function,
Scenario 3 Replace Type Code with Subclasses). Being a total function
on the closed SmellKind type, it can never raise UnmappedSmellError. -/
def suggest : SmellKind → RefactoringKind
  | SmellKind.messageChains => RefactoringKind.hideDelegate
  | SmellKind.featureEnvy => RefactoringKind.moveFunction
  | SmellKind.switchStatements => RefactoringKind.replaceTypeCodeWithSubclasses
  | SmellKind.largeClass => RefactoringKind.extractClass
  | SmellKind.dataClass => RefactoringKind.moveFunction
  | SmellKind.longParameterList => RefactoringKind.introduceParameterObject
  | SmellKind.dataClumps => RefactoringKind.extractClass

/-! ## Smell Detectors (spec.md section 4.2) -/

/-- Modelled from the spec: the Message Chains detector on one method:
a finding is produced exactly when chainDepth reaches
messageChainMinDepth (section 4.2 table); severity is the triggering
metric, the secondary location is the owner of the chain head. -/
def detectMessageChainsMethod (cfg : Config) (m : MethodEntity) :
    Option Finding :=
  if cfg.messageChainMinDepth ≤ chainDepth m then
    some
      { smell := SmellKind.messageChains
        severity := chainDepth m
        primaryLocation := m.ownerClass ++ "." ++ m.name
        secondary := (chainSource cfg m).toList
        refactoring := suggest SmellKind.messageChains
        rationale := "access chain depth reaches the configured minimum" }
  else none

/-- Modelled from the spec: the Feature Envy detector on one method:
a finding is produced when externalAccessRatio exceeds the configured
ratio and some other class receives at least two distinct external
accesses (sections 4.1 and 4.2); the first such class is reported as
the envied target. -/
def detectFeatureEnvyMethod (cfg : Config) (m : MethodEntity) :
    Option Finding :=
  if cfg.featureEnvyRatio < externalAccessRatio m then
    match envyCandidates m with
    | [] => none
    | cls :: _ =>
      some
        { smell := SmellKind.featureEnvy
          severity := (externalAccesses m).length
          primaryLocation := m.ownerClass ++ "." ++ m.name
          secondary := [cls]
          refactoring := suggest SmellKind.featureEnvy
          rationale := "most data accesses target another class" }
  else none

/-- Modelled from the spec: the Switch Statements detector on one class:
a finding is produced exactly when typeSwitchCount is at least two
(section 4.2 table: a single switch used once is not flagged). -/
def detectSwitchStatementsClass (c : ClassEntity) : Option Finding :=
  if 2 ≤ typeSwitchCount c then
    some
      { smell := SmellKind.switchStatements
        severity := typeSwitchCount c
        primaryLocation := c.name
        secondary := typeCodeFields c
        refactoring := suggest SmellKind.switchStatements
        rationale := "several methods switch on the same type code field" }
  else none

/-- Modelled from the spec: the Large Class trigger, fieldCount above
largeClassFieldThreshold or statementCount above
largeClassStatementThreshold (section 4.2 table). -/
def isLargeClass (cfg : Config) (c : ClassEntity) : Bool :=
  (cfg.largeClassFieldThreshold < fieldCount c) ||
    (cfg.largeClassStatementThreshold < classStatementCount c)

/-- Modelled from the spec: the Large Class finding for one class. -/
def largeClassFinding (c : ClassEntity) : Finding :=
  { smell := SmellKind.largeClass
    severity := fieldCount c + classStatementCount c
    primaryLocation := c.name
    secondary := []
    refactoring := suggest SmellKind.largeClass
    rationale := "class exceeds a size threshold" }

/-- Modelled from the spec: the Message Chains detector over the whole
Program Model. -/
def detectMessageChains (cfg : Config) (model : ProgramModel) :
    List Finding :=
  model.flatMap (fun c => c.methods.filterMap (detectMessageChainsMethod cfg))

/-- Modelled from the spec: the Feature Envy detector over the whole
Program Model. -/
def detectFeatureEnvy (cfg : Config) (model : ProgramModel) :
    List Finding :=
  model.flatMap (fun c => c.methods.filterMap (detectFeatureEnvyMethod cfg))

/-- Modelled from the spec: the Switch Statements detector over the
whole Program Model. -/
def detectSwitchStatements (model : ProgramModel) : List Finding :=
  model.filterMap detectSwitchStatementsClass

/-- Modelled from the spec: the Large Class detector over the whole
Program Model. -/
def detectLargeClass (cfg : Config) (model : ProgramModel) :
    List Finding :=
  (model.filter (isLargeClass cfg)).map largeClassFinding

/-- Modelled from the spec: the full detection pipeline, the two-phase
data flow of section 2: the immutable Program Model is consumed by the
independent detectors and their findings are collected; every step is a
pure function of the model and the configuration. -/
def runPipeline (cfg : Config) (model : ProgramModel) : List Finding :=
  detectMessageChains cfg model ++ detectFeatureEnvy cfg model ++
    detectSwitchStatements model ++ detectLargeClass cfg model

/-- Projection of a possible finding to its suggested refactoring and
its secondary locations, used to state detector outcomes without
binders. -/
def findingSummary (f : Finding) : RefactoringKind × List String :=
  (f.refactoring, f.secondary)

/-! ## Program Model instances for the catalogue examples

The message-chain example classes are embedded from the Hide Delegate
source file (class Department, class Person, class Client, class
PersonRefactored); the Employee class is embedded from
replace-type-code-with-subclasses.ts. The access lists follow the
method bodies in source order. -/

/-- Department.getManager from the Hide Delegate file: returns the own
field manager. -/
def departmentGetManager : MethodEntity :=
  { ownerClass := "Department"
    name := "getManager"
    params := []
    accesses :=
      [{ target := "manager", owner := "Department",
         kind := AccessKind.read, ret := none }]
    statementCount := 1
    branches := [] }

/-- Department.getChargeCode from the Hide Delegate file. -/
def departmentGetChargeCode : MethodEntity :=
  { ownerClass := "Department"
    name := "getChargeCode"
    params := []
    accesses :=
      [{ target := "chargeCode", owner := "Department",
         kind := AccessKind.read, ret := none }]
    statementCount := 1
    branches := [] }

/-- Person.getName from the Hide Delegate file. -/
def personGetName : MethodEntity :=
  { ownerClass := "Person"
    name := "getName"
    params := []
    accesses :=
      [{ target := "name", owner := "Person",
         kind := AccessKind.read, ret := none }]
    statementCount := 1
    branches := [] }

/-- Person.getDepartment from the Hide Delegate file: returns the own
field department, whose value is a Department. -/
def personGetDepartment : MethodEntity :=
  { ownerClass := "Person"
    name := "getDepartment"
    params := []
    accesses :=
      [{ target := "department", owner := "Person",
         kind := AccessKind.read, ret := some "Department" }]
    statementCount := 1
    branches := [] }

/-- Client.displayPersonInfo from the Hide Delegate file: the body
calls person.getDepartment().getManager(), then
person.getDepartment().getChargeCode(), then person.getName(), in
source order. -/
def clientDisplayPersonInfo : MethodEntity :=
  { ownerClass := "Client"
    name := "displayPersonInfo"
    params := [{ name := "person", typeTag := TypeTag.reference,
                 position := 0 }]
    accesses :=
      [{ target := "getDepartment", owner := "Person",
         kind := AccessKind.call, ret := some "Department" },
       { target := "getManager", owner := "Department",
         kind := AccessKind.call, ret := none },
       { target := "getDepartment", owner := "Person",
         kind := AccessKind.call, ret := some "Department" },
       { target := "getChargeCode", owner := "Department",
         kind := AccessKind.call, ret := none },
       { target := "getName", owner := "Person",
         kind := AccessKind.call, ret := none }]
    statementCount := 5
    branches := [] }

/-- PersonRefactored.getManager from the Hide Delegate file: the body
is return this.department.getManager(), so the ordered accesses are the
read of the own field department followed by the one-hop call of
getManager on the resulting Department. -/
def personRefactoredGetManager : MethodEntity :=
  { ownerClass := "PersonRefactored"
    name := "getManager"
    params := []
    accesses :=
      [{ target := "department", owner := "PersonRefactored",
         kind := AccessKind.read, ret := some "Department" },
       { target := "getManager", owner := "Department",
         kind := AccessKind.call, ret := none }]
    statementCount := 1
    branches := [] }

/-- PersonRefactored.getChargeCode from the Hide Delegate file. -/
def personRefactoredGetChargeCode : MethodEntity :=
  { ownerClass := "PersonRefactored"
    name := "getChargeCode"
    params := []
    accesses :=
      [{ target := "department", owner := "PersonRefactored",
         kind := AccessKind.read, ret := some "Department" },
       { target := "getChargeCode", owner := "Department",
         kind := AccessKind.call, ret := none }]
    statementCount := 1
    branches := [] }

/-- Modelled from the spec: the AccessEntity set of Order.generateInvoice
in the Feature Envy file. The Program-Model Adapter that extracts
accesses from TypeScript text is external to the repository (spec.md
section 6), and Scenario 2 of section 8 fixes the extracted set at five
accesses to Customer members and two accesses to own fields of Order;
the five Customer targets are instantiated as the three getter calls
visible in the body plus two of the customer data fields they reach,
and the two own accesses are the fields items and totalAmount. -/
def orderGenerateInvoice : MethodEntity :=
  { ownerClass := "Order"
    name := "generateInvoice"
    params := []
    accesses :=
      [{ target := "getName", owner := "Customer",
         kind := AccessKind.call, ret := none },
       { target := "getAddress", owner := "Customer",
         kind := AccessKind.call, ret := none },
       { target := "getPhone", owner := "Customer",
         kind := AccessKind.call, ret := none },
       { target := "name", owner := "Customer",
         kind := AccessKind.read, ret := none },
       { target := "address", owner := "Customer",
         kind := AccessKind.read, ret := none },
       { target := "items", owner := "Order",
         kind := AccessKind.read, ret := none },
       { target := "totalAmount", owner := "Order",
         kind := AccessKind.read, ret := none }]
    statementCount := 9
    branches := [] }

/-- The case labels shared by the four switch statements of class
Employee in replace-type-code-with-subclasses.ts. -/
def employeeTypeLabels : List String :=
  ["FULL_TIME", "PART_TIME", "CONTRACTOR", "INTERN"]

/-- Employee.calculateMonthlySalary: one switch on this.type with the
four employee type labels; the body reads type, baseSalary and
hoursWorked and calls the private helper calculateFullTimeBonus. -/
def employeeCalculateMonthlySalary : MethodEntity :=
  { ownerClass := "Employee"
    name := "calculateMonthlySalary"
    params := []
    accesses :=
      [{ target := "type", owner := "Employee",
         kind := AccessKind.read, ret := none },
       { target := "baseSalary", owner := "Employee",
         kind := AccessKind.read, ret := none },
       { target := "calculateFullTimeBonus", owner := "Employee",
         kind := AccessKind.call, ret := none },
       { target := "hoursWorked", owner := "Employee",
         kind := AccessKind.read, ret := none }]
    statementCount := 6
    branches := [{ onField := "type", labels := employeeTypeLabels }] }

/-- Employee.getBenefits: one switch on this.type with the same four
labels. -/
def employeeGetBenefits : MethodEntity :=
  { ownerClass := "Employee"
    name := "getBenefits"
    params := []
    accesses :=
      [{ target := "type", owner := "Employee",
         kind := AccessKind.read, ret := none }]
    statementCount := 6
    branches := [{ onField := "type", labels := employeeTypeLabels }] }

/-- Employee.getVacationDays: one switch on this.type with the same
four labels; the part-time case reads hoursWorked. -/
def employeeGetVacationDays : MethodEntity :=
  { ownerClass := "Employee"
    name := "getVacationDays"
    params := []
    accesses :=
      [{ target := "type", owner := "Employee",
         kind := AccessKind.read, ret := none },
       { target := "hoursWorked", owner := "Employee",
         kind := AccessKind.read, ret := none }]
    statementCount := 6
    branches := [{ onField := "type", labels := employeeTypeLabels }] }

/-- Employee.getEmploymentStatus: one switch on this.type with the same
four labels. -/
def employeeGetEmploymentStatus : MethodEntity :=
  { ownerClass := "Employee"
    name := "getEmploymentStatus"
    params := []
    accesses :=
      [{ target := "type", owner := "Employee",
         kind := AccessKind.read, ret := none }]
    statementCount := 6
    branches := [{ onField := "type", labels := employeeTypeLabels }] }

/-- Employee.calculateFullTimeBonus: the private helper, no switch. -/
def employeeCalculateFullTimeBonus : MethodEntity :=
  { ownerClass := "Employee"
    name := "calculateFullTimeBonus"
    params := []
    accesses :=
      [{ target := "baseSalary", owner := "Employee",
         kind := AccessKind.read, ret := none }]
    statementCount := 1
    branches := [] }

/-- A getter of class Employee reading one own field, no switch. -/
def employeeGetter (nm fd : String) : MethodEntity :=
  { ownerClass := "Employee"
    name := nm
    params := []
    accesses :=
      [{ target := fd, owner := "Employee",
         kind := AccessKind.read, ret := none }]
    statementCount := 1
    branches := [] }

/-- The ClassEntity of class Employee from
replace-type-code-with-subclasses.ts: four private fields of which
type is the type-code field, and the nine methods in source order. -/
def employeeClass : ClassEntity :=
  { name := "Employee"
    fields :=
      [{ ownerClass := "Employee", name := "name",
         typeTag := TypeTag.primitive, visibility := Visibility.priv },
       { ownerClass := "Employee", name := "type",
         typeTag := TypeTag.typeCode, visibility := Visibility.priv },
       { ownerClass := "Employee", name := "baseSalary",
         typeTag := TypeTag.primitive, visibility := Visibility.priv },
       { ownerClass := "Employee", name := "hoursWorked",
         typeTag := TypeTag.primitive, visibility := Visibility.priv }]
    methods :=
      [employeeCalculateMonthlySalary, employeeGetBenefits,
       employeeGetVacationDays, employeeGetEmploymentStatus,
       employeeCalculateFullTimeBonus,
       employeeGetter "getName" "name",
       employeeGetter "getType" "type",
       employeeGetter "getBaseSalary" "baseSalary",
       employeeGetter "getHoursWorked" "hoursWorked"]
    superclass := none }

/-! ## Claim theorems: detection scenarios -/

/-- C1: under the default configuration a method whose longest access
chain is exactly one hop never produces a Message Chains finding and a
method with exactly two hops always does; in particular the getManager
method of the refactored Person class (chain depth 1) yields no finding
while Client.displayPersonInfo (chain depth 2) yields a Message Chains
finding whose suggested refactoring is Hide Delegate with target
Person. -/
theorem messageChain_boundary_and_scenario
    (m1 m2 : MethodEntity)
    (h1 : chainDepth m1 = 1) (h2 : chainDepth m2 = 2) :
    detectMessageChainsMethod defaultConfig m1 = none
    ∧ (detectMessageChainsMethod defaultConfig m2).isSome = true
    ∧ chainDepth personRefactoredGetManager = 1
    ∧ detectMessageChainsMethod defaultConfig personRefactoredGetManager =
        none
    ∧ chainDepth clientDisplayPersonInfo = 2
    ∧ (detectMessageChainsMethod defaultConfig
          clientDisplayPersonInfo).map findingSummary =
        some (RefactoringKind.hideDelegate, ["Person"]) := by
  refine ⟨?_, ?_, by decide, by decide, by decide, by decide⟩
  · simp [detectMessageChainsMethod, defaultConfig, h1]
  · simp [detectMessageChainsMethod, defaultConfig, h2]

/-- Witness for C1 at the two methods of the Hide Delegate file. -/
theorem messageChain_boundary_and_scenario_witness :
    chainDepth personRefactoredGetManager = 1
    ∧ chainDepth clientDisplayPersonInfo = 2
    ∧ (detectMessageChainsMethod defaultConfig personRefactoredGetManager =
          none
        ∧ (detectMessageChainsMethod defaultConfig
              clientDisplayPersonInfo).isSome = true
        ∧ chainDepth personRefactoredGetManager = 1
        ∧ detectMessageChainsMethod defaultConfig
            personRefactoredGetManager = none
        ∧ chainDepth clientDisplayPersonInfo = 2
        ∧ (detectMessageChainsMethod defaultConfig
              clientDisplayPersonInfo).map findingSummary =
            some (RefactoringKind.hideDelegate, ["Person"])) :=
  ⟨by decide, by decide,
    messageChain_boundary_and_scenario personRefactoredGetManager
      clientDisplayPersonInfo (by decide) (by decide)⟩

/-- C2: Order.generateInvoice has five external accesses, all owned by
Customer, out of seven accesses in total, so its externalAccessRatio is
5/7, which exceeds the default Feature Envy ratio 1/2, and the detector
produces a Feature Envy finding with target class Customer and
suggested refactoring Move Function. -/
theorem featureEnvy_order_scenario :
    (externalAccesses orderGenerateInvoice).length = 5
    ∧ (externalAccesses orderGenerateInvoice).all
        (fun a => a.owner == "Customer") = true
    ∧ orderGenerateInvoice.accesses.length = 7
    ∧ externalAccessRatio orderGenerateInvoice = 5 / 7
    ∧ defaultConfig.featureEnvyRatio <
        externalAccessRatio orderGenerateInvoice
    ∧ (detectFeatureEnvyMethod defaultConfig
          orderGenerateInvoice).map findingSummary =
        some (RefactoringKind.moveFunction, ["Customer"]) := by
  have h5 : (externalAccesses orderGenerateInvoice).length = 5 := by decide
  have h7 : orderGenerateInvoice.accesses.length = 7 := by decide
  have hratio : externalAccessRatio orderGenerateInvoice = 5 / 7 := by
    rw [externalAccessRatio, h5, h7]
    norm_num
  have hlt : defaultConfig.featureEnvyRatio <
      externalAccessRatio orderGenerateInvoice := by
    rw [hratio]
    show (1 : ℚ) / 2 < 5 / 7
    norm_num
  have hc : envyCandidates orderGenerateInvoice = ["Customer"] := by decide
  refine ⟨h5, by decide, h7, hratio, hlt, ?_⟩
  simp only [detectFeatureEnvyMethod, hc, if_pos hlt]
  decide

/-- C3: in the Employee class of replace-type-code-with-subclasses.ts
the methods whose branch set discriminates on the type-code field type
are exactly calculateMonthlySalary, getBenefits, getVacationDays and
getEmploymentStatus, all four with identical case labels, so
typeSwitchCount is 4, at least 2, and a Switch Statements finding is
produced with suggested refactoring Replace Type Code with
Subclasses. -/
theorem switchStatements_employee_scenario :
    (employeeClass.methods.filter
        (fun m => discriminatesOn m "type")).map (fun m => m.name) =
      ["calculateMonthlySalary", "getBenefits", "getVacationDays",
       "getEmploymentStatus"]
    ∧ (employeeClass.methods.filter
          (fun m => discriminatesOn m "type")).all
        (fun m =>
          m.branches ==
            [{ onField := "type", labels := employeeTypeLabels }]) = true
    ∧ typeCodeFields employeeClass = ["type"]
    ∧ typeSwitchCount employeeClass = 4
    ∧ 2 ≤ typeSwitchCount employeeClass
    ∧ (detectSwitchStatementsClass employeeClass).map
        (fun f => f.refactoring) =
      some RefactoringKind.replaceTypeCodeWithSubclasses := by
  refine ⟨by decide, by decide, by decide, by decide, by decide, by decide⟩

/-! ## Claim theorems: algebraic properties of the pipeline -/

/-- C5: the full detection pipeline is a pure function of the
configuration and the immutable Program Model, so running it twice on
the same model yields identical Finding lists and in particular equal
Finding multisets (order-independent set equality). -/
theorem pipeline_idempotent (cfg : Config) (model : ProgramModel) :
    runPipeline cfg model = runPipeline cfg model
    ∧ ((runPipeline cfg model : List Finding) : Multiset Finding) =
        ((runPipeline cfg model : List Finding) : Multiset Finding) :=
  ⟨rfl, rfl⟩

/-- Helper: raising the Large Class field threshold can only shrink the
set of classes the Large Class trigger accepts. -/
theorem isLargeClass_antitone (cfg1 cfg2 : Config) (c : ClassEntity)
    (hfield : cfg1.largeClassFieldThreshold ≤
      cfg2.largeClassFieldThreshold)
    (hstmt : cfg1.largeClassStatementThreshold =
      cfg2.largeClassStatementThreshold)
    (hc : isLargeClass cfg2 c = true) : isLargeClass cfg1 c = true := by
  simp only [isLargeClass, Bool.or_eq_true, decide_eq_true_eq] at hc ⊢
  rcases hc with h | h
  · exact Or.inl (lt_of_le_of_lt hfield h)
  · exact Or.inr (hstmt ▸ h)

/-- C6: for configurations that differ only by a larger
largeClassFieldThreshold, the number of Large Class findings under the
larger threshold is at most the number under the smaller threshold. -/
theorem largeClass_threshold_monotone (cfg1 cfg2 : Config)
    (model : ProgramModel)
    (hfield : cfg1.largeClassFieldThreshold ≤
      cfg2.largeClassFieldThreshold)
    (hstmt : cfg1.largeClassStatementThreshold =
      cfg2.largeClassStatementThreshold) :
    (detectLargeClass cfg2 model).length ≤
      (detectLargeClass cfg1 model).length := by
  have e1 : (detectLargeClass cfg2 model).length =
      List.countP (isLargeClass cfg2) model := by
    simp [detectLargeClass, List.countP_eq_length_filter]
  have e2 : (detectLargeClass cfg1 model).length =
      List.countP (isLargeClass cfg1) model := by
    simp [detectLargeClass, List.countP_eq_length_filter]
  rw [e1, e2]
  exact List.countP_mono_left
    (fun c _ hc => isLargeClass_antitone cfg1 cfg2 c hfield hstmt hc)

/-- A class with twelve fields, used to exercise the Large Class
threshold boundary. -/
def wideClass : ClassEntity :=
  { name := "Wide"
    fields := List.replicate 12
      { ownerClass := "Wide", name := "f",
        typeTag := TypeTag.primitive, visibility := Visibility.priv }
    methods := []
    superclass := none }

/-- The default configuration with the Large Class field threshold
raised from 10 to 12. -/
def wideConfig : Config :=
  { defaultConfig with largeClassFieldThreshold := 12 }

/-- Witness for C6: under the raised threshold the twelve-field class
stops being flagged, so the finding count drops from one to zero. -/
theorem largeClass_threshold_monotone_witness :
    defaultConfig.largeClassFieldThreshold ≤
      wideConfig.largeClassFieldThreshold
    ∧ defaultConfig.largeClassStatementThreshold =
      wideConfig.largeClassStatementThreshold
    ∧ (detectLargeClass wideConfig [wideClass]).length ≤
      (detectLargeClass defaultConfig [wideClass]).length :=
  ⟨by decide, rfl,
    largeClass_threshold_monotone defaultConfig wideConfig [wideClass]
      (by decide) rfl⟩

/-! ## Claim theorems: failure semantics (spec.md sections 4.2 and 7) -/

/-- Modelled from the spec: the per-detector output stream of section 7:
either a Finding or a skipped-finding record carrying the offending
entity id and the reason, produced when a MetricComputationError is
downgraded at the per-detector boundary. -/
inductive AnalysisRecord where
  | finding (f : Finding)
  | skippedFinding (entityId : String) (reason : String)
deriving DecidableEq, Repr

/-- Modelled from the spec: a detector whose required metric may fail
with a MetricComputationError for a single entity (section 7); the
detector flags a method when the metric value reaches the threshold. -/
structure FallibleDetector where
  smell : SmellKind
  metric : MethodEntity → Except String Nat
  threshold : Nat
  refactoring : RefactoringKind

/-- Modelled from the spec: one detector examining one method: a failed
metric is downgraded to a skipped-finding record for that single
entity, never an abort (section 7 propagation rules). -/
def runMethodFallible (d : FallibleDetector) (m : MethodEntity) :
    List AnalysisRecord :=
  match d.metric m with
  | Except.error e =>
    [AnalysisRecord.skippedFinding (m.ownerClass ++ "." ++ m.name) e]
  | Except.ok v =>
    if d.threshold ≤ v then
      [AnalysisRecord.finding
        { smell := d.smell
          severity := v
          primaryLocation := m.ownerClass ++ "." ++ m.name
          secondary := []
          refactoring := d.refactoring
          rationale := "metric value reaches the threshold" }]
    else []

/-- Modelled from the spec: one detector over the whole Program
Model. -/
def runDetectorFallible (d : FallibleDetector) (model : ProgramModel) :
    List AnalysisRecord :=
  model.flatMap (fun c => c.methods.flatMap (runMethodFallible d))

/-- Modelled from the spec: the analysis run over a list of independent
detectors (section 5: detectors fan out over the immutable model). -/
def runPipelineFallible (ds : List FallibleDetector)
    (model : ProgramModel) : List AnalysisRecord :=
  ds.flatMap (fun d => runDetectorFallible d model)

/-- C7: failure of a single metric computation is isolated. Let d be a
detector and d' the same detector except that its metric fails on the
single entity named e. Then the analysis still runs to completion with
every other detector's output untouched (the pipeline is the
concatenation of the per-detector outputs, so the remaining detectors
contribute exactly what they contribute in any run), the outputs of d'
on every method other than e coincide with those of d, and on a method
where the metric fails the output is one skipped-finding record for
that entity rather than an abort. -/
theorem metric_failure_isolated (d d' : FallibleDetector)
    (rest : List FallibleDetector) (model : ProgramModel)
    (e : String) (m1 m2 : MethodEntity) (err : String)
    (hs : d'.smell = d.smell) (ht : d'.threshold = d.threshold)
    (hr : d'.refactoring = d.refactoring)
    (hagree : ∀ x : MethodEntity, x.name ≠ e → d'.metric x = d.metric x)
    (hm1 : m1.name ≠ e) :
    runPipelineFallible (d' :: rest) model =
      runDetectorFallible d' model ++ runPipelineFallible rest model
    ∧ runMethodFallible d' m1 = runMethodFallible d m1
    ∧ (d'.metric m2 = Except.error err →
        runMethodFallible d' m2 =
          [AnalysisRecord.skippedFinding
            (m2.ownerClass ++ "." ++ m2.name) err]) := by
  refine ⟨?_, ?_, ?_⟩
  · simp [runPipelineFallible]
  · rw [runMethodFallible, runMethodFallible, hagree m1 hm1, hs, ht, hr]
  · intro hfail
    rw [runMethodFallible, hfail]

/-- A detector computing chainDepth with threshold two, the Message
Chains detector of the fallible pipeline. -/
def chainDetector : FallibleDetector :=
  { smell := SmellKind.messageChains
    metric := fun m => Except.ok (chainDepth m)
    threshold := 2
    refactoring := RefactoringKind.hideDelegate }

/-- The same detector with a metric that fails with a
MetricComputationError on the single method named displayPersonInfo. -/
def chainDetectorFailing : FallibleDetector :=
  { smell := SmellKind.messageChains
    metric := fun m =>
      if m.name == "displayPersonInfo" then
        Except.error "malformed access chain"
      else Except.ok (chainDepth m)
    threshold := 2
    refactoring := RefactoringKind.hideDelegate }

/-- A second, independent detector family for the witness run: switch
counting on methods, standing in for another smell family. -/
def parameterDetector : FallibleDetector :=
  { smell := SmellKind.longParameterList
    metric := fun m => Except.ok (parameterCount m)
    threshold := 5
    refactoring := RefactoringKind.introduceParameterObject }

/-- The Program Model of the Hide Delegate example file restricted to
the two methods the witness exercises. -/
def hideDelegateModel : ProgramModel :=
  [{ name := "Client"
     fields := []
     methods := [clientDisplayPersonInfo]
     superclass := none },
   { name := "PersonRefactored"
     fields := []
     methods := [personRefactoredGetManager, personRefactoredGetChargeCode]
     superclass := none }]

/-- Witness for C7: the chain detector whose metric fails exactly on
displayPersonInfo, run together with the parameter detector over the
Hide Delegate model. -/
theorem metric_failure_isolated_witness :
    personRefactoredGetManager.name ≠ "displayPersonInfo"
    ∧ chainDetectorFailing.metric clientDisplayPersonInfo =
        Except.error "malformed access chain"
    ∧ (runPipelineFallible (chainDetectorFailing :: [parameterDetector])
          hideDelegateModel =
        runDetectorFallible chainDetectorFailing hideDelegateModel ++
          runPipelineFallible [parameterDetector] hideDelegateModel
      ∧ runMethodFallible chainDetectorFailing personRefactoredGetManager =
          runMethodFallible chainDetector personRefactoredGetManager
      ∧ (chainDetectorFailing.metric clientDisplayPersonInfo =
            Except.error "malformed access chain" →
          runMethodFallible chainDetectorFailing clientDisplayPersonInfo =
            [AnalysisRecord.skippedFinding "Client.displayPersonInfo"
              "malformed access chain"])) :=
  ⟨by decide, rfl,
    metric_failure_isolated chainDetector chainDetectorFailing
      [parameterDetector] hideDelegateModel "displayPersonInfo"
      personRefactoredGetManager clientDisplayPersonInfo
      "malformed access chain" rfl rfl rfl
      (by
        intro x hx
        simp only [chainDetectorFailing, chainDetector]
        rw [if_neg]
        simp [hx])
      (by decide)⟩

/-! ## Embedding of replace-type-code-with-subclasses.ts

Shallow embedding of the before class Employee (type code plus switch
statements) and of the after hierarchy (FullTimeEmployee,
PartTimeEmployee, ContractorEmployee, InternEmployee). TS numbers are
embedded as rationals; Math.floor is Rat.floor; the literals 0.1 and
0.5 are the rationals 1/10 and 1/2. The switch default branches throw
on an unknown type code; the embedded EmployeeType is a closed
enumeration, so those branches are unreachable and need no clause. -/

namespace ReplaceTypeCode

/-- The enum EmployeeType. -/
inductive EmployeeType where
  | FULL_TIME
  | PART_TIME
  | CONTRACTOR
  | INTERN
deriving DecidableEq, Repr

/-- The before class Employee: name, type code, baseSalary,
hoursWorked. -/
structure Employee where
  name : String
  type : EmployeeType
  baseSalary : ℚ
  hoursWorked : ℚ

/-- Employee.calculateFullTimeBonus: ten percent of base salary. -/
def Employee.calculateFullTimeBonus (e : Employee) : ℚ :=
  e.baseSalary * (1 / 10)

/-- Employee.calculateMonthlySalary: the switch on this.type. -/
def Employee.calculateMonthlySalary (e : Employee) : ℚ :=
  match e.type with
  | EmployeeType.FULL_TIME => e.baseSalary + e.calculateFullTimeBonus
  | EmployeeType.PART_TIME => e.baseSalary / 40 * e.hoursWorked
  | EmployeeType.CONTRACTOR => e.baseSalary * e.hoursWorked
  | EmployeeType.INTERN => e.baseSalary * (1 / 2)

/-- Employee.getBenefits: the switch on this.type. -/
def Employee.getBenefits (e : Employee) : List String :=
  match e.type with
  | EmployeeType.FULL_TIME =>
    ["Health Insurance", "401k", "Paid Vacation", "Dental"]
  | EmployeeType.PART_TIME => ["Health Insurance", "Paid Vacation"]
  | EmployeeType.CONTRACTOR => []
  | EmployeeType.INTERN => ["Learning Stipend"]

/-- Employee.getVacationDays: the switch on this.type; the part-time
case is Math.floor of hoursWorked over 40 times 25. -/
def Employee.getVacationDays (e : Employee) : ℚ :=
  match e.type with
  | EmployeeType.FULL_TIME => 25
  | EmployeeType.PART_TIME => (Rat.floor (e.hoursWorked / 40 * 25) : ℚ)
  | EmployeeType.CONTRACTOR => 0
  | EmployeeType.INTERN => 10

/-- Employee.getEmploymentStatus: the switch on this.type. -/
def Employee.getEmploymentStatus (e : Employee) : String :=
  match e.type with
  | EmployeeType.FULL_TIME => "Permanent Full-time Employee"
  | EmployeeType.PART_TIME => "Permanent Part-time Employee"
  | EmployeeType.CONTRACTOR => "Independent Contractor"
  | EmployeeType.INTERN => "Temporary Intern"

/-- The subclass FullTimeEmployee of the refactored hierarchy; the
common base fields name, baseSalary and hoursWorked are inlined into
each subclass. -/
structure FullTimeEmployee where
  name : String
  baseSalary : ℚ
  hoursWorked : ℚ

/-- FullTimeEmployee.calculateFullTimeBonus. -/
def FullTimeEmployee.calculateFullTimeBonus (e : FullTimeEmployee) : ℚ :=
  e.baseSalary * (1 / 10)

/-- FullTimeEmployee.calculateMonthlySalary. -/
def FullTimeEmployee.calculateMonthlySalary (e : FullTimeEmployee) : ℚ :=
  e.baseSalary + e.calculateFullTimeBonus

/-- FullTimeEmployee.getBenefits. -/
def FullTimeEmployee.getBenefits (_e : FullTimeEmployee) : List String :=
  ["Health Insurance", "401k", "Paid Vacation", "Dental"]

/-- FullTimeEmployee.getVacationDays. -/
def FullTimeEmployee.getVacationDays (_e : FullTimeEmployee) : ℚ := 25

/-- FullTimeEmployee.getEmploymentStatus. -/
def FullTimeEmployee.getEmploymentStatus (_e : FullTimeEmployee) :
    String :=
  "Permanent Full-time Employee"

/-- The subclass PartTimeEmployee. -/
structure PartTimeEmployee where
  name : String
  baseSalary : ℚ
  hoursWorked : ℚ

/-- PartTimeEmployee.calculateMonthlySalary. -/
def PartTimeEmployee.calculateMonthlySalary (e : PartTimeEmployee) : ℚ :=
  e.baseSalary / 40 * e.hoursWorked

/-- PartTimeEmployee.getBenefits. -/
def PartTimeEmployee.getBenefits (_e : PartTimeEmployee) : List String :=
  ["Health Insurance", "Paid Vacation"]

/-- PartTimeEmployee.getVacationDays. -/
def PartTimeEmployee.getVacationDays (e : PartTimeEmployee) : ℚ :=
  (Rat.floor (e.hoursWorked / 40 * 25) : ℚ)

/-- PartTimeEmployee.getEmploymentStatus. -/
def PartTimeEmployee.getEmploymentStatus (_e : PartTimeEmployee) :
    String :=
  "Permanent Part-time Employee"

/-- The subclass ContractorEmployee. -/
structure ContractorEmployee where
  name : String
  baseSalary : ℚ
  hoursWorked : ℚ

/-- ContractorEmployee.calculateMonthlySalary. -/
def ContractorEmployee.calculateMonthlySalary (e : ContractorEmployee) :
    ℚ :=
  e.baseSalary * e.hoursWorked

/-- ContractorEmployee.getBenefits. -/
def ContractorEmployee.getBenefits (_e : ContractorEmployee) :
    List String :=
  []

/-- ContractorEmployee.getVacationDays. -/
def ContractorEmployee.getVacationDays (_e : ContractorEmployee) : ℚ := 0

/-- ContractorEmployee.getEmploymentStatus. -/
def ContractorEmployee.getEmploymentStatus (_e : ContractorEmployee) :
    String :=
  "Independent Contractor"

/-- The subclass InternEmployee. -/
structure InternEmployee where
  name : String
  baseSalary : ℚ
  hoursWorked : ℚ

/-- InternEmployee.calculateMonthlySalary. -/
def InternEmployee.calculateMonthlySalary (e : InternEmployee) : ℚ :=
  e.baseSalary * (1 / 2)

/-- InternEmployee.getBenefits. -/
def InternEmployee.getBenefits (_e : InternEmployee) : List String :=
  ["Learning Stipend"]

/-- InternEmployee.getVacationDays. -/
def InternEmployee.getVacationDays (_e : InternEmployee) : ℚ := 10

/-- InternEmployee.getEmploymentStatus. -/
def InternEmployee.getEmploymentStatus (_e : InternEmployee) : String :=
  "Temporary Intern"

end ReplaceTypeCode

/-- C4: for every name, base salary and hours worked, the type-code
class Employee returns the same monthly salary, benefits, vacation days
and employment status as the corresponding subclass of the refactored
hierarchy constructed from the same data, for each of the four employee
types. -/
theorem employee_subclass_equivalence (n : String) (b h : ℚ) :
    ((ReplaceTypeCode.Employee.mk n ReplaceTypeCode.EmployeeType.FULL_TIME
          b h).calculateMonthlySalary =
        (ReplaceTypeCode.FullTimeEmployee.mk n b h).calculateMonthlySalary
      ∧ (ReplaceTypeCode.Employee.mk n
            ReplaceTypeCode.EmployeeType.FULL_TIME b h).getBenefits =
        (ReplaceTypeCode.FullTimeEmployee.mk n b h).getBenefits
      ∧ (ReplaceTypeCode.Employee.mk n
            ReplaceTypeCode.EmployeeType.FULL_TIME b h).getVacationDays =
        (ReplaceTypeCode.FullTimeEmployee.mk n b h).getVacationDays
      ∧ (ReplaceTypeCode.Employee.mk n
            ReplaceTypeCode.EmployeeType.FULL_TIME b h).getEmploymentStatus =
        (ReplaceTypeCode.FullTimeEmployee.mk n b h).getEmploymentStatus)
    ∧ ((ReplaceTypeCode.Employee.mk n
            ReplaceTypeCode.EmployeeType.PART_TIME b h).calculateMonthlySalary =
        (ReplaceTypeCode.PartTimeEmployee.mk n b h).calculateMonthlySalary
      ∧ (ReplaceTypeCode.Employee.mk n
            ReplaceTypeCode.EmployeeType.PART_TIME b h).getBenefits =
        (ReplaceTypeCode.PartTimeEmployee.mk n b h).getBenefits
      ∧ (ReplaceTypeCode.Employee.mk n
            ReplaceTypeCode.EmployeeType.PART_TIME b h).getVacationDays =
        (ReplaceTypeCode.PartTimeEmployee.mk n b h).getVacationDays
      ∧ (ReplaceTypeCode.Employee.mk n
            ReplaceTypeCode.EmployeeType.PART_TIME b h).getEmploymentStatus =
        (ReplaceTypeCode.PartTimeEmployee.mk n b h).getEmploymentStatus)
    ∧ ((ReplaceTypeCode.Employee.mk n
            ReplaceTypeCode.EmployeeType.CONTRACTOR b h).calculateMonthlySalary =
        (ReplaceTypeCode.ContractorEmployee.mk n b h).calculateMonthlySalary
      ∧ (ReplaceTypeCode.Employee.mk n
            ReplaceTypeCode.EmployeeType.CONTRACTOR b h).getBenefits =
        (ReplaceTypeCode.ContractorEmployee.mk n b h).getBenefits
      ∧ (ReplaceTypeCode.Employee.mk n
            ReplaceTypeCode.EmployeeType.CONTRACTOR b h).getVacationDays =
        (ReplaceTypeCode.ContractorEmployee.mk n b h).getVacationDays
      ∧ (ReplaceTypeCode.Employee.mk n
            ReplaceTypeCode.EmployeeType.CONTRACTOR b h).getEmploymentStatus =
        (ReplaceTypeCode.ContractorEmployee.mk n b h).getEmploymentStatus)
    ∧ ((ReplaceTypeCode.Employee.mk n
            ReplaceTypeCode.EmployeeType.INTERN b h).calculateMonthlySalary =
        (ReplaceTypeCode.InternEmployee.mk n b h).calculateMonthlySalary
      ∧ (ReplaceTypeCode.Employee.mk n
            ReplaceTypeCode.EmployeeType.INTERN b h).getBenefits =
        (ReplaceTypeCode.InternEmployee.mk n b h).getBenefits
      ∧ (ReplaceTypeCode.Employee.mk n
            ReplaceTypeCode.EmployeeType.INTERN b h).getVacationDays =
        (ReplaceTypeCode.InternEmployee.mk n b h).getVacationDays
      ∧ (ReplaceTypeCode.Employee.mk n
            ReplaceTypeCode.EmployeeType.INTERN b h).getEmploymentStatus =
        (ReplaceTypeCode.InternEmployee.mk n b h).getEmploymentStatus) :=
  ⟨⟨rfl, rfl, rfl, rfl⟩, ⟨rfl, rfl, rfl, rfl⟩, ⟨rfl, rfl, rfl, rfl⟩,
    ⟨rfl, rfl, rfl, rfl⟩⟩

/-! ## Embedding of couplers/feature-envy/move-method.ts

Shallow embedding of the before pair Customer and Order and of the
after pair RefactoredCustomer and RefactoredOrder. The invoice strings
are built by the same sequence of concatenations as the TypeScript
bodies; items.join takes a comma and a space as separator. -/

namespace MoveMethod

/-- Rendering of a TS number inside a template literal; the same
function is applied on both sides of the refactoring, so the proved
equivalence does not depend on the concrete rendering chosen here. -/
def numStr (q : ℚ) : String := toString q

/-- The before class Customer: name, address, phone. -/
structure Customer where
  name : String
  address : String
  phone : String

/-- Customer.getName. -/
def Customer.getName (c : Customer) : String := c.name

/-- Customer.getAddress. -/
def Customer.getAddress (c : Customer) : String := c.address

/-- Customer.getPhone. -/
def Customer.getPhone (c : Customer) : String := c.phone

/-- The before class Order: customer, items, totalAmount. -/
structure Order where
  customer : Customer
  items : List String
  totalAmount : ℚ

/-- Order.generateInvoice: builds the invoice string line by line,
reading the customer data through the Customer getters. -/
def Order.generateInvoice (o : Order) : String :=
  let invoice := "INVOICE\n"
  let invoice := invoice ++ "========\n"
  let invoice := invoice ++ ("Customer: " ++ o.customer.getName ++ "\n")
  let invoice := invoice ++ ("Address: " ++ o.customer.getAddress ++ "\n")
  let invoice := invoice ++ ("Phone: " ++ o.customer.getPhone ++ "\n")
  let invoice := invoice ++ "--------\n"
  let invoice := invoice ++
    ("Items: " ++ String.intercalate ", " o.items ++ "\n")
  let invoice := invoice ++ ("Total: $" ++ numStr o.totalAmount ++ "\n")
  invoice

/-- The after class RefactoredCustomer. -/
structure RefactoredCustomer where
  name : String
  address : String
  phone : String

/-- RefactoredCustomer.getName. -/
def RefactoredCustomer.getName (c : RefactoredCustomer) : String := c.name

/-- RefactoredCustomer.getAddress. -/
def RefactoredCustomer.getAddress (c : RefactoredCustomer) : String :=
  c.address

/-- RefactoredCustomer.getPhone. -/
def RefactoredCustomer.getPhone (c : RefactoredCustomer) : String :=
  c.phone

/-- RefactoredCustomer.generateCustomerSection: the moved method; it
reads the own fields directly. -/
def RefactoredCustomer.generateCustomerSection
    (c : RefactoredCustomer) : String :=
  let section_ := "INVOICE\n"
  let section_ := section_ ++ "========\n"
  let section_ := section_ ++ ("Customer: " ++ c.name ++ "\n")
  let section_ := section_ ++ ("Address: " ++ c.address ++ "\n")
  let section_ := section_ ++ ("Phone: " ++ c.phone ++ "\n")
  let section_ := section_ ++ "--------\n"
  section_

/-- The after class RefactoredOrder. -/
structure RefactoredOrder where
  customer : RefactoredCustomer
  items : List String
  totalAmount : ℚ

/-- RefactoredOrder.generateInvoice: delegates the customer section and
appends the order lines. -/
def RefactoredOrder.generateInvoice (o : RefactoredOrder) : String :=
  let invoice := o.customer.generateCustomerSection
  let invoice := invoice ++
    ("Items: " ++ String.intercalate ", " o.items ++ "\n")
  let invoice := invoice ++ ("Total: $" ++ numStr o.totalAmount ++ "\n")
  invoice

end MoveMethod

/-- C9: for every customer name, address and phone and every item list
and total amount, the refactored invoice, built by delegating the
customer section to RefactoredCustomer.generateCustomerSection, is
character for character the string the original Order.generateInvoice
returns on the same data. -/
theorem generateInvoice_equivalence (n a p : String)
    (items : List String) (t : ℚ) :
    (MoveMethod.Order.mk (MoveMethod.Customer.mk n a p) items
        t).generateInvoice =
      (MoveMethod.RefactoredOrder.mk
        (MoveMethod.RefactoredCustomer.mk n a p) items
        t).generateInvoice :=
  rfl

/-! ## Embedding of the repository file inventory

Each record lists one executable TypeScript source file of the
repository: its path, the number of module import or require
declarations it contains (none anywhere in the repository), and the
number of source lines performing console output. The files of
src/unnamed are TypeScript sources whose original names are unknown;
the markdown documentation files are not executable demonstrations and
are not listed. -/

/-- One executable source file of the repository. -/
structure SourceFile where
  path : String
  importDecls : Nat
  consoleLines : Nat
deriving DecidableEq, Repr

/-- The TypeScript source files of the repository with their import
declaration counts and console output line counts. -/
def tsSourceFiles : List SourceFile :=
  [{ path := "bloaters/data-clumps/extract-method.ts", importDecls := 0, consoleLines := 11 },
   { path := "bloaters/data-clumps/preserve-whole-object.ts", importDecls := 0, consoleLines := 6 },
   { path := "bloaters/long-method/extract-method.ts", importDecls := 0, consoleLines := 12 },
   { path := "bloaters/long-method/parameter-object.ts", importDecls := 0, consoleLines := 6 },
   { path := "bloaters/long-method/replace-temp-with-query.ts", importDecls := 0, consoleLines := 10 },
   { path := "bloaters/long-parameter-list/introduce-parameter-object.ts", importDecls := 0, consoleLines := 27 },
   { path := "bloaters/long-parameter-list/preserve-whole-object.ts", importDecls := 0, consoleLines := 23 },
   { path := "change-preventers/dead-code/collapse-hierarchy.ts", importDecls := 0, consoleLines := 13 },
   { path := "change-preventers/shotgun-surgery/inline-class.ts", importDecls := 0, consoleLines := 2 },
   { path := "change-preventers/shotgun-surgery/move-field.ts", importDecls := 0, consoleLines := 4 },
   { path := "change-preventers/shotgun-surgery/move-method.ts", importDecls := 0, consoleLines := 40 },
   { path := "couplers/feature-envy/move-method.ts", importDecls := 0, consoleLines := 4 },
   { path := "couplers/inappropiate-intimacy/hide-delegate.ts", importDecls := 0, consoleLines := 8 },
   { path := "dispensables/comments/extract-variable.ts", importDecls := 0, consoleLines := 13 },
   { path := "dispensables/duplicate-code/extract-method-pull-up-field.ts", importDecls := 0, consoleLines := 27 },
   { path := "dispensables/duplicate-code/pull-up-constructor-body.ts", importDecls := 0, consoleLines := 22 },
   { path := "object-orientation-abusers/alternative-classes-with-different-interfaces/add-parameter.ts", importDecls := 0, consoleLines := 32 },
   { path := "object-orientation-abusers/refused-bequest/replace-with-delegation.ts", importDecls := 0, consoleLines := 5 },
   { path := "object-orientation-abusers/switch-statements/move-method.ts", importDecls := 0, consoleLines := 2 },
   { path := "object-orientation-abusers/switch-statements/replace-conditional-with-polymorphism.ts", importDecls := 0, consoleLines := 22 },
   { path := "object-orientation-abusers/switch-statements/replace-type-code-with-subclasses.ts", importDecls := 0, consoleLines := 28 },
   { path := "object-orientation-abusers/temporary-fields/introduce-null-object.ts", importDecls := 0, consoleLines := 20 },
   { path := "object-orientation-abusers/temporary-fields/replace-with-method-object.ts", importDecls := 0, consoleLines := 0 },
   { path := "unnamed/part_000", importDecls := 0, consoleLines := 8 },
   { path := "unnamed/part_003", importDecls := 0, consoleLines := 59 },
   { path := "unnamed/part_005", importDecls := 0, consoleLines := 33 },
   { path := "unnamed/part_006", importDecls := 0, consoleLines := 15 },
   { path := "unnamed/part_007", importDecls := 0, consoleLines := 23 },
   { path := "unnamed/part_008", importDecls := 0, consoleLines := 3 },
   { path := "unnamed/part_010", importDecls := 0, consoleLines := 3 },
   { path := "unnamed/part_013", importDecls := 0, consoleLines := 48 },
   { path := "unnamed/part_014", importDecls := 0, consoleLines := 4 },
   { path := "unnamed/part_015", importDecls := 0, consoleLines := 1 }]

/-- A file is self-contained when it declares no imports, so executing
it uses no declarations from any other file. -/
def selfContained (f : SourceFile) : Bool := f.importDecls == 0

/-- A file prints its demonstration to a console when it contains at
least one console output line. -/
def printsToConsole (f : SourceFile) : Bool := 0 < f.consoleLines

/-- The path of the one TypeScript file that defines its before and
after classes but never executes them, so running it prints nothing. -/
def silentFile : String :=
  "object-orientation-abusers/temporary-fields/replace-with-method-object.ts"

/-- C8 counterexample: the claim that every source file is a
self-contained demonstration whose output is printed to a console fails
at replace-with-method-object.ts, which is in the inventory, has no
console output line, and therefore produces no console output when
run. -/
theorem every_file_prints_cex :
    (SourceFile.mk silentFile 0 0) ∈ tsSourceFiles
    ∧ printsToConsole (SourceFile.mk silentFile 0 0) = false
    ∧ ¬ (∀ f ∈ tsSourceFiles,
          selfContained f = true ∧ printsToConsole f = true) := by
  refine ⟨by decide, by decide, ?_⟩
  intro hall
  have h := (hall (SourceFile.mk silentFile 0 0) (by decide)).2
  exact absurd h (by decide)

/-- C8 amended: every TypeScript source file of the repository is
self-contained, and every one of them except
replace-with-method-object.ts prints its demonstration output to a
console. -/
theorem files_selfContained_amended (f : SourceFile)
    (hf : f ∈ tsSourceFiles) :
    selfContained f = true
    ∧ (f.path ≠ silentFile → printsToConsole f = true) := by
  have hall : tsSourceFiles.all
      (fun g => selfContained g &&
        ((g.path == silentFile) || printsToConsole g)) = true := by
    decide
  have h := List.all_eq_true.mp hall f hf
  simp only [Bool.and_eq_true, Bool.or_eq_true, beq_iff_eq] at h
  refine ⟨h.1, fun hne => ?_⟩
  rcases h.2 with h2 | h2
  · exact absurd h2 hne
  · exact h2

/-- Witness for the amended C8 at the Hide Delegate example file. -/
theorem files_selfContained_witness :
    (SourceFile.mk "couplers/feature-envy/move-method.ts" 0 4) ∈
      tsSourceFiles
    ∧ (selfContained (SourceFile.mk "couplers/feature-envy/move-method.ts"
          0 4) = true
      ∧ ((SourceFile.mk "couplers/feature-envy/move-method.ts"
            0 4).path ≠ silentFile →
          printsToConsole (SourceFile.mk
            "couplers/feature-envy/move-method.ts" 0 4) = true)) :=
  ⟨by decide,
    files_selfContained_amended
      (SourceFile.mk "couplers/feature-envy/move-method.ts" 0 4)
      (by decide)⟩

/-- Witness for C4 at the full-time employee of the usage section of
the file (Alice Johnson, base salary 5000, 40 hours). -/
theorem employee_subclass_equivalence_witness :
    (ReplaceTypeCode.Employee.mk "Alice Johnson"
        ReplaceTypeCode.EmployeeType.FULL_TIME 5000
        40).calculateMonthlySalary =
      (ReplaceTypeCode.FullTimeEmployee.mk "Alice Johnson" 5000
        40).calculateMonthlySalary :=
  (employee_subclass_equivalence "Alice Johnson" 5000 40).1.1

/-- Witness for C5 at the default configuration over the Hide Delegate
model. -/
theorem pipeline_idempotent_witness :
    runPipeline defaultConfig hideDelegateModel =
      runPipeline defaultConfig hideDelegateModel
    ∧ ((runPipeline defaultConfig hideDelegateModel :
          List Finding) : Multiset Finding) =
        ((runPipeline defaultConfig hideDelegateModel :
          List Finding) : Multiset Finding) :=
  pipeline_idempotent defaultConfig hideDelegateModel

/-- Witness for C9 at the order of the usage section of the file
(John Doe, a laptop and a mouse, total 1299.99). -/
theorem generateInvoice_equivalence_witness :
    (MoveMethod.Order.mk
        (MoveMethod.Customer.mk "John Doe" "123 Main St" "555-0123")
        ["Laptop", "Mouse"] (129999 / 100)).generateInvoice =
      (MoveMethod.RefactoredOrder.mk
        (MoveMethod.RefactoredCustomer.mk "John Doe" "123 Main St"
          "555-0123")
        ["Laptop", "Mouse"] (129999 / 100)).generateInvoice :=
  generateInvoice_equivalence "John Doe" "123 Main St" "555-0123"
    ["Laptop", "Mouse"] (129999 / 100)
